import Mathlib

/-!
Verification of the result-interpretation and handler layer of
`src/fastapi_quickcrud/crud_router.py` (FastAPIQuickCRUD).

The Python module is shallowly embedded: each method of
`SQLALchemyResultParse` and each route handler body becomes a Lean
function over an explicit model of the SQLAlchemy execution result.
Side effects on the injected FastAPI `Response` object and on the
session (header assignment, commit, rollback) are recorded as an event
trace in execution order, and raised exceptions become `Except.error`.
-/

namespace FastapiQuickcrud

/-- A row tuple returned by the execution engine.  `scalar` is the first
element of the tuple, i.e. what `row[0]` and `.scalars()` expose. -/
structure Row (α : Type) where
  scalar : α
deriving DecidableEq, Inhabited

/-- Model of the object returned by `session.execute(stmt)`: the realized
row sequence together with the affected-row count reported by the cursor. -/
structure SqlExecResult (α : Type) where
  rows : List (Row α)
  rowcount : Nat
deriving DecidableEq, Inhabited

/-- `.scalars()`: the first column of every row. -/
def SqlExecResult.scalars (res : SqlExecResult α) : List α :=
  res.rows.map Row.scalar

/-- Exceptions that the embedded code can raise. -/
inductive Err where
  /-- `MultipleResultsFound` raised by `.one_or_none()`. -/
  | multipleResults
  /-- pydantic `ValidationError` raised by `parse_obj_as`. -/
  | parseError
  /-- `ValueError` raised by single-target tuple unpacking (`x, = xs`). -/
  | unpackError
  /-- `AssertionError` from `assert primary_key_field is not None`. -/
  | assertionError
  /-- `FindOneApiNotRegister(404, ...)`. -/
  | findOneApiNotRegister (code : Nat)
  /-- A re-raised `IntegrityError` carrying `e.orig.args`. -/
  | integrityError (args : List String)
deriving DecidableEq

/-- Observable side effects of one interpreter run, in execution order. -/
inductive Event where
  /-- `parse_obj_as(response_model, ...)` returned successfully. -/
  | parsed
  /-- `fastapi_response.headers["x-total-count"] = str n`. -/
  | setHeader (n : Nat)
  /-- `session.commit()` (reached only when autocommit is on). -/
  | commitSession
  /-- `session.rollback()`. -/
  | rollbackSession
deriving DecidableEq

/-- The response artifact finally returned to the transport layer. -/
inductive Artifact (β : Type) where
  /-- A schema-shaped body (single object or list, depending on `β`). -/
  | body (b : β)
  /-- `Response(status_code=...)` with an empty body (204, 409). -/
  | statusResponse (code : Nat)
  /-- `RedirectResponse(location, status_code=...)`. -/
  | redirect (code : Nat) (location : String)
deriving DecidableEq

/-- `SQLALchemyResultParse.commit`: `session.commit()` happens iff the
autocommit policy is on; the trace it contributes. -/
def commitStep (autocommit : Bool) : List Event :=
  if autocommit then [Event.commitSession] else []

/-- `parse_obj_as(List[Model], xs)`: every element converts, or the whole
call raises a `ValidationError`. -/
def parseListWith (parse : α → Option β) : List α → Option (List β)
  | [] => some []
  | a :: as =>
    match parse a, parseListWith parse as with
    | some b, some bs => some (b :: bs)
    | _, _ => none

/-- `.one_or_none()`: `none` on zero rows, the row on one, raises on more. -/
def SqlExecResult.one_or_none (res : SqlExecResult α) : Except Err (Option (Row α)) :=
  match res.rows with
  | [] => .ok none
  | [r] => .ok (some r)
  | _ => .error .multipleResults

/-- The result of one interpreter method: either a raised exception or a
final artifact, each paired with the trace of effects that happened
before the method finished. -/
abbrev ParseOutcome (β : Type) := Except (Err × List Event) (Artifact β × List Event)

/-- `SQLALchemyResultParse.find_one` (crud_router.py lines 89-97). -/
def find_one (parse : α → Option ε) (autocommit : Bool) (res : SqlExecResult α) :
    ParseOutcome ε :=
  match res.one_or_none with
  | .error e => .error (e, [])
  | .ok none => .ok (.statusResponse 204, commitStep autocommit)
  | .ok (some one_row_data) =>
    match parse one_row_data.scalar with
    | none => .error (.parseError, [])
    | some v => .ok (.body v, [.parsed, .setHeader 1] ++ commitStep autocommit)

/-- `SQLALchemyResultParse.find_many` (lines 99-104): realize `.scalars()`
into a list, convert it, set the header to the raw list's length, commit. -/
def find_many (parse : α → Option ε) (autocommit : Bool) (res : SqlExecResult α) :
    ParseOutcome (List ε) :=
  match parseListWith parse res.scalars with
  | none => .error (.parseError, [])
  | some l =>
    .ok (.body l, [.parsed, .setHeader res.scalars.length] ++ commitStep autocommit)

/-- `SQLALchemyResultParse.update_one` (lines 106-117): `next(iter(...))`,
204 on `StopIteration`; otherwise header first, then conversion, then
commit. -/
def update_one (parse : Row α → Option ε) (autocommit : Bool) (res : SqlExecResult α) :
    ParseOutcome ε :=
  match res.rows with
  | [] => .ok (.statusResponse 204, [])
  | query_result :: _ =>
    match parse query_result with
    | none => .error (.parseError, [Event.setHeader 1])
    | some v => .ok (.body v, [.setHeader 1, .parsed] ++ commitStep autocommit)

/-- `SQLALchemyResultParse.update_many` (lines 119-130): realize all rows,
204 if none; otherwise header (raw length) first, then conversion, then
commit. -/
def update_many (parse : Row α → Option ε) (autocommit : Bool) (res : SqlExecResult α) :
    ParseOutcome (List ε) :=
  if res.rows.isEmpty then .ok (.statusResponse 204, [])
  else
    match parseListWith parse res.rows with
    | none => .error (.parseError, [Event.setHeader res.rows.length])
    | some l =>
      .ok (.body l, [.setHeader res.rows.length, .parsed] ++ commitStep autocommit)

/-- `SQLALchemyResultParse.patch_one` (lines 132-141); same shape as
`update_one`. -/
def patch_one (parse : Row α → Option ε) (autocommit : Bool) (res : SqlExecResult α) :
    ParseOutcome ε :=
  match res.rows with
  | [] => .ok (.statusResponse 204, [])
  | query_result :: _ =>
    match parse query_result with
    | none => .error (.parseError, [Event.setHeader 1])
    | some v => .ok (.body v, [.setHeader 1, .parsed] ++ commitStep autocommit)

/-- `SQLALchemyResultParse.patch_many` (lines 143-153); same shape as
`update_many`. -/
def patch_many (parse : Row α → Option ε) (autocommit : Bool) (res : SqlExecResult α) :
    ParseOutcome (List ε) :=
  if res.rows.isEmpty then .ok (.statusResponse 204, [])
  else
    match parseListWith parse res.rows with
    | none => .error (.parseError, [Event.setHeader res.rows.length])
    | some l =>
      .ok (.body l, [.setHeader res.rows.length, .parsed] ++ commitStep autocommit)

/-- `SQLALchemyResultParse.upsert_one` (lines 155-159): the handler already
unpacked the single returned row; conversion, then header, then commit. -/
def upsert_one (parse : Row α → Option ε) (autocommit : Bool) (row : Row α) :
    ParseOutcome ε :=
  match parse row with
  | none => .error (.parseError, [])
  | some v => .ok (.body v, [.parsed, .setHeader 1] ++ commitStep autocommit)

/-- `SQLALchemyResultParse.upsert_many` (lines 161-166): `.fetchall()`,
conversion, header (raw length), commit. -/
def upsert_many (parse : Row α → Option ε) (autocommit : Bool) (res : SqlExecResult α) :
    ParseOutcome (List ε) :=
  match parseListWith parse res.rows with
  | none => .error (.parseError, [])
  | some l =>
    .ok (.body l, [.parsed, .setHeader res.rows.length] ++ commitStep autocommit)

/-- The dict `{self.primary_name: value}` built for delete responses. -/
structure KeyObject (α : Type) where
  name : String
  value : α
deriving DecidableEq

/-- `SQLALchemyResultParse.delete_one` (lines 168-175): branch on
`rowcount`; on the non-zero branch convert every returned key to a
key-object and unpack the resulting list as a single element. -/
def delete_one (parseKey : KeyObject α → Option κ) (primary_name : String)
    (autocommit : Bool) (res : SqlExecResult α) : ParseOutcome κ :=
  if res.rowcount ≠ 0 then
    match parseListWith (fun i => parseKey ⟨primary_name, i⟩) res.scalars with
    | none => .error (.parseError, [])
    | some l =>
      match l with
      | [v] => .ok (.body v, [.parsed, .setHeader 1] ++ commitStep autocommit)
      | _ => .error (.unpackError, [Event.parsed])
  else .ok (.statusResponse 204, commitStep autocommit)

/-- `SQLALchemyResultParse.delete_many` (lines 177-186): branch on
`rowcount`; on the non-zero branch build one key-object per returned key,
convert the list, set the header to its length, commit. -/
def delete_many (parseKey : KeyObject α → Option κ) (primary_name : String)
    (autocommit : Bool) (res : SqlExecResult α) : ParseOutcome (List κ) :=
  if res.rowcount ≠ 0 then
    match parseListWith (fun i => parseKey ⟨primary_name, i⟩) res.scalars with
    | none => .error (.parseError, [])
    | some l =>
      .ok (.body l, [.parsed, .setHeader res.scalars.length] ++ commitStep autocommit)
  else .ok (.statusResponse 204, commitStep autocommit)

/-- One entry of `fastapi_request.app.routes`: its path template and the
set of HTTP methods it serves. -/
structure AppRoute where
  path : String
  methods : List String
deriving DecidableEq

/-- Python substring containment on character lists (`needle in hay` when
`hay` starts with `needle`). -/
def charsStartWith : List Char → List Char → Bool
  | [], _ => true
  | _ :: _, [] => false
  | a :: as, b :: bs => a == b && charsStartWith as bs

/-- Python substring containment on character lists. -/
def charsContain (needle : List Char) : List Char → Bool
  | [] => needle.isEmpty
  | c :: cs => charsStartWith needle (c :: cs) || charsContain needle cs

/-- Python `needle in hay` on strings. -/
def strContainsSub (needle hay : String) : Bool :=
  charsContain needle.data hay.data

/-- Python `str.upper()` as applied to HTTP method names (ASCII). -/
def strUpper (s : String) : String :=
  ⟨s.data.map Char.toUpper⟩

/-- The route-table scan of `post_redirect_get` (lines 195-200): walk every
route; at a path match, unpack the route's method set as a single element
(raising `ValueError` if it is not a singleton) and record whether it is a
GET route.  `acc` is the `redirect_url_exist` flag. -/
def scanRoutes (redirect_end_point : String) : List AppRoute → Bool → Except Err Bool
  | [], acc => .ok acc
  | route :: rest, acc =>
    if route.path == redirect_end_point then
      match route.methods with
      | [route_request_method] =>
        scanRoutes redirect_end_point rest
          (acc || (strUpper route_request_method == "GET"))
      | _ => .error .unpackError
    else scanRoutes redirect_end_point rest acc

/-- A registered GET route at the given path template: a route whose
method set is exactly a GET singleton. -/
def isGetRouteAt (redirect_end_point : String) (route : AppRoute) : Bool :=
  route.path == redirect_end_point &&
    (match route.methods with
     | [m] => strUpper m == "GET"
     | _ => false)

/-- `SQLALchemyResultParse.post_redirect_get` (lines 188-210): convert the
inserted row, extract the primary-key value (assertion failure if absent),
build the redirect location, scan the route table for a matching GET
route; roll back and raise 404 if it is missing, otherwise commit and
issue a 303 redirect.  `getPk` models `result.__dict__.pop(primary_name,
None)` on the converted entity and `pkStr` models `str(...)` on the key. -/
def post_redirect_get (parse : Row α → Option ε) (getPk : ε → Option π)
    (pkStr : π → String) (primary_name : String) (autocommit : Bool)
    (url_path : String) (routes : List AppRoute) (row : Row α) :
    ParseOutcome ε :=
  match parse row with
  | none => .error (.parseError, [])
  | some result =>
    match getPk result with
    | none => .error (.assertionError, [Event.parsed])
    | some primary_key_field =>
      let redirect_url := url_path ++ "/" ++ pkStr primary_key_field
      let redirect_end_point := url_path ++ "/\x7b" ++ primary_name ++ "\x7d"
      match scanRoutes redirect_end_point routes false with
      | .error e => .error (e, [Event.parsed])
      | .ok false =>
        .error (.findOneApiNotRegister 404, [Event.parsed, Event.rollbackSession])
      | .ok true =>
        .ok (.redirect 303 redirect_url, [Event.parsed] ++ commitStep autocommit)

/-- The outcome of `session.execute(stmt)` inside a handler's `try` block:
either an execution result or a raised `IntegrityError` whose
`e.orig.args` is the given argument list. -/
inductive ExecOutcome (α : Type) where
  | ok (res : SqlExecResult α)
  | integrityError (args : List String)

/-- The marker the handlers look for inside an `IntegrityError` message. -/
def unique_violation_marker : String :=
  "duplicate key value violates unique constraint"

/-- Handler `insert_one_and_support_upsert` (lines 300-319): on success
unpack the single returned row (`query_result, = ...`) and delegate to
`upsert_one`; on an `IntegrityError`, unpack the single message, return
409 without committing when it contains the marker, re-raise otherwise. -/
def insert_one_and_support_upsert (parse : Row α → Option ε) (autocommit : Bool)
    (outcome : ExecOutcome α) : ParseOutcome ε :=
  match outcome with
  | .ok res =>
    match res.rows with
    | [query_result] => upsert_one parse autocommit query_result
    | _ => .error (.unpackError, [])
  | .integrityError args =>
    match args with
    | [err_msg] =>
      if strContainsSub unique_violation_marker err_msg then
        .ok (.statusResponse 409, [])
      else .error (.integrityError args, [])
    | _ => .error (.unpackError, [])

/-- Handler `insert_many_and_support_upsert` (lines 327-346): same
conflict guard; on success the whole cursor goes to `upsert_many`. -/
def insert_many_and_support_upsert (parse : Row α → Option ε) (autocommit : Bool)
    (outcome : ExecOutcome α) : ParseOutcome (List ε) :=
  match outcome with
  | .ok res => upsert_many parse autocommit res
  | .integrityError args =>
    match args with
    | [err_msg] =>
      if strContainsSub unique_violation_marker err_msg then
        .ok (.statusResponse 409, [])
      else .error (.integrityError args, [])
    | _ => .error (.unpackError, [])

/-- Handler `create_one_and_redirect_to_get_one_api_with_primary_key`
(lines 400-421): same conflict guard; on success unpack the single
returned row and delegate to `post_redirect_get`. -/
def create_one_and_redirect_to_get_one_api_with_primary_key
    (parse : Row α → Option ε) (getPk : ε → Option π) (pkStr : π → String)
    (primary_name : String) (autocommit : Bool) (url_path : String)
    (routes : List AppRoute) (outcome : ExecOutcome α) : ParseOutcome ε :=
  match outcome with
  | .ok res =>
    match res.rows with
    | [query_result] =>
      post_redirect_get parse getPk pkStr primary_name autocommit url_path
        routes query_result
    | _ => .error (.unpackError, [])
  | .integrityError args =>
    match args with
    | [err_msg] =>
      if strContainsSub unique_violation_marker err_msg then
        .ok (.statusResponse 409, [])
      else .error (.integrityError args, [])
    | _ => .error (.unpackError, [])

/-- Session-level effects of a mutating handler body, in the order they
actually happen at run time. -/
inductive HEvent where
  /-- The statement actually runs against the database. -/
  | stmtExecuted
  /-- `session.expire_all()`. -/
  | expireAll
  /-- The result interpreter starts reading the execution result. -/
  | resultsRead
deriving DecidableEq

/-- The shared body shape of every mutating handler
(`query_result = session.execute(stmt)`, `session.expire_all()`,
`query_result = await query_result if async_mode else query_result`,
then the result parser).  In synchronous mode `session.execute` runs the
statement at the call; in suspending mode it only builds a coroutine,
which runs when the later `await` forces it. -/
def mutating_handler_trace (async_mode : Bool) : List HEvent :=
  let tr := if async_mode then [] else [HEvent.stmtExecuted]
  let tr := tr ++ [HEvent.expireAll]
  let tr := if async_mode then tr ++ [HEvent.stmtExecuted] else tr
  tr ++ [HEvent.resultsRead]

/-- Handler `delete_one_by_primary_key` (lines 354-368), session effects. -/
def delete_one_by_primary_key_trace (async_mode : Bool) : List HEvent :=
  mutating_handler_trace async_mode

/-- Handler `delete_many_by_query` (lines 376-392), session effects. -/
def delete_many_by_query_trace (async_mode : Bool) : List HEvent :=
  mutating_handler_trace async_mode

/-- Handler for PATCH by key (lines 434-453; named after the update it
performs in the source), session effects. -/
def patch_one_by_primary_key_trace (async_mode : Bool) : List HEvent :=
  mutating_handler_trace async_mode

/-- Handler for PATCH by query (lines 466-484), session effects. -/
def patch_many_by_query_trace (async_mode : Bool) : List HEvent :=
  mutating_handler_trace async_mode

/-- Handler `entire_update_by_primary_key` (lines 493-512), session
effects. -/
def entire_update_by_primary_key_trace (async_mode : Bool) : List HEvent :=
  mutating_handler_trace async_mode

/-- Handler `entire_update_many_by_query` (lines 521-539), session
effects. -/
def entire_update_many_by_query_trace (async_mode : Bool) : List HEvent :=
  mutating_handler_trace async_mode

/-- The values successively assigned to the `x-total-count` header along a
trace. -/
def headerEvents (tr : List Event) : List Nat :=
  tr.filterMap fun e =>
    match e with
    | .setHeader n => some n
    | _ => none

/-- The final value of the `x-total-count` header after a trace, if it was
ever set. -/
def finalHeader (tr : List Event) : Option Nat :=
  (headerEvents tr).getLast?

/-- `headerAfterParseFrom seen tr`: along `tr`, every header assignment is
preceded by a successful schema conversion (`seen` records whether one
already happened). -/
def headerAfterParseFrom (seen : Bool) : List Event → Bool
  | [] => true
  | Event.parsed :: es => headerAfterParseFrom true es
  | Event.setHeader _ :: es => seen && headerAfterParseFrom seen es
  | _ :: es => headerAfterParseFrom seen es

/-- Every header assignment in the trace happens after a successful schema
conversion. -/
def headerAfterParseB (tr : List Event) : Bool :=
  headerAfterParseFrom false tr

/-- `commitIsLastB tr`: any commit in the trace is its final event. -/
def commitIsLastB : List Event → Bool
  | [] => true
  | [_] => true
  | Event.commitSession :: _ :: _ => false
  | _ :: es => commitIsLastB es

lemma parseListWith_length (parse : α → Option β) :
    ∀ (l : List α) (l2 : List β), parseListWith parse l = some l2 →
      l2.length = l.length := by
  intro l
  induction l with
  | nil =>
    intro l2 h
    simp [parseListWith] at h
    simp [← h]
  | cons a as ih =>
    intro l2 h
    simp only [parseListWith] at h
    cases hp : parse a with
    | none => rw [hp] at h; simp at h
    | some b =>
      rw [hp] at h
      cases hrest : parseListWith parse as with
      | none => rw [hrest] at h; simp at h
      | some bs =>
        rw [hrest] at h
        simp at h
        subst h
        simp [ih bs hrest]

lemma finalHeader_parse_first (n : Nat) (ac : Bool) :
    finalHeader ([.parsed, .setHeader n] ++ commitStep ac) = some n := by
  cases ac <;> rfl

lemma finalHeader_header_first (n : Nat) (ac : Bool) :
    finalHeader ([.setHeader n, .parsed] ++ commitStep ac) = some n := by
  cases ac <;> rfl

lemma find_one_ok_body (parse : α → Option ε) (ac : Bool) (res : SqlExecResult α)
    (v : ε) (tr : List Event) (h : find_one parse ac res = .ok (.body v, tr)) :
    tr = [.parsed, .setHeader 1] ++ commitStep ac := by
  rcases res with ⟨rows, rc⟩
  rcases rows with _ | ⟨r, _ | ⟨r2, rest⟩⟩ <;>
    simp only [find_one, SqlExecResult.one_or_none] at h
  · simp at h
  · cases hp : parse r.scalar with
    | none => rw [hp] at h; simp at h
    | some w => rw [hp] at h; simp at h; exact h.2.symm
  · simp at h

lemma find_many_ok_body (parse : α → Option ε) (ac : Bool) (res : SqlExecResult α)
    (l : List ε) (tr : List Event)
    (h : find_many parse ac res = .ok (.body l, tr)) :
    tr = [.parsed, .setHeader res.scalars.length] ++ commitStep ac ∧
      l.length = res.scalars.length := by
  simp only [find_many] at h
  cases hp : parseListWith parse res.scalars with
  | none => rw [hp] at h; simp at h
  | some l2 =>
    rw [hp] at h
    simp at h
    refine ⟨h.2.symm, ?_⟩
    rw [← h.1]
    exact parseListWith_length parse res.scalars l2 hp

lemma update_one_ok_body (parse : Row α → Option ε) (ac : Bool)
    (res : SqlExecResult α) (v : ε) (tr : List Event)
    (h : update_one parse ac res = .ok (.body v, tr)) :
    tr = [.setHeader 1, .parsed] ++ commitStep ac := by
  rcases res with ⟨rows, rc⟩
  rcases rows with _ | ⟨r, rest⟩ <;> simp only [update_one] at h
  · simp at h
  · cases hp : parse r with
    | none => rw [hp] at h; simp at h
    | some w => rw [hp] at h; simp at h; exact h.2.symm

lemma update_many_ok_body (parse : Row α → Option ε) (ac : Bool)
    (res : SqlExecResult α) (l : List ε) (tr : List Event)
    (h : update_many parse ac res = .ok (.body l, tr)) :
    tr = [.setHeader res.rows.length, .parsed] ++ commitStep ac ∧
      l.length = res.rows.length := by
  simp only [update_many] at h
  by_cases he : res.rows.isEmpty
  · rw [if_pos he] at h; simp at h
  · rw [if_neg he] at h
    cases hp : parseListWith parse res.rows with
    | none => rw [hp] at h; simp at h
    | some l2 =>
      rw [hp] at h
      simp at h
      refine ⟨h.2.symm, ?_⟩
      rw [← h.1]
      exact parseListWith_length parse res.rows l2 hp

lemma patch_one_ok_body (parse : Row α → Option ε) (ac : Bool)
    (res : SqlExecResult α) (v : ε) (tr : List Event)
    (h : patch_one parse ac res = .ok (.body v, tr)) :
    tr = [.setHeader 1, .parsed] ++ commitStep ac := by
  rcases res with ⟨rows, rc⟩
  rcases rows with _ | ⟨r, rest⟩ <;> simp only [patch_one] at h
  · simp at h
  · cases hp : parse r with
    | none => rw [hp] at h; simp at h
    | some w => rw [hp] at h; simp at h; exact h.2.symm

lemma patch_many_ok_body (parse : Row α → Option ε) (ac : Bool)
    (res : SqlExecResult α) (l : List ε) (tr : List Event)
    (h : patch_many parse ac res = .ok (.body l, tr)) :
    tr = [.setHeader res.rows.length, .parsed] ++ commitStep ac ∧
      l.length = res.rows.length := by
  simp only [patch_many] at h
  by_cases he : res.rows.isEmpty
  · rw [if_pos he] at h; simp at h
  · rw [if_neg he] at h
    cases hp : parseListWith parse res.rows with
    | none => rw [hp] at h; simp at h
    | some l2 =>
      rw [hp] at h
      simp at h
      refine ⟨h.2.symm, ?_⟩
      rw [← h.1]
      exact parseListWith_length parse res.rows l2 hp

lemma upsert_one_ok_body (parse : Row α → Option ε) (ac : Bool) (row : Row α)
    (v : ε) (tr : List Event) (h : upsert_one parse ac row = .ok (.body v, tr)) :
    tr = [.parsed, .setHeader 1] ++ commitStep ac := by
  simp only [upsert_one] at h
  cases hp : parse row with
  | none => rw [hp] at h; simp at h
  | some w => rw [hp] at h; simp at h; exact h.2.symm

lemma upsert_many_ok_body (parse : Row α → Option ε) (ac : Bool)
    (res : SqlExecResult α) (l : List ε) (tr : List Event)
    (h : upsert_many parse ac res = .ok (.body l, tr)) :
    tr = [.parsed, .setHeader res.rows.length] ++ commitStep ac ∧
      l.length = res.rows.length := by
  simp only [upsert_many] at h
  cases hp : parseListWith parse res.rows with
  | none => rw [hp] at h; simp at h
  | some l2 =>
    rw [hp] at h
    simp at h
    refine ⟨h.2.symm, ?_⟩
    rw [← h.1]
    exact parseListWith_length parse res.rows l2 hp

lemma delete_one_ok_body (parseKey : KeyObject α → Option κ) (pname : String)
    (ac : Bool) (res : SqlExecResult α) (v : κ) (tr : List Event)
    (h : delete_one parseKey pname ac res = .ok (.body v, tr)) :
    tr = [.parsed, .setHeader 1] ++ commitStep ac := by
  simp only [delete_one] at h
  by_cases hrc : res.rowcount ≠ 0
  · rw [if_pos hrc] at h
    cases hp : parseListWith (fun i => parseKey ⟨pname, i⟩) res.scalars with
    | none => rw [hp] at h; simp at h
    | some l2 =>
      rw [hp] at h
      rcases l2 with _ | ⟨w, _ | ⟨w2, ws⟩⟩ <;> simp at h
      exact h.2.symm
  · rw [if_neg hrc] at h; simp at h

lemma delete_many_ok_body (parseKey : KeyObject α → Option κ) (pname : String)
    (ac : Bool) (res : SqlExecResult α) (l : List κ) (tr : List Event)
    (h : delete_many parseKey pname ac res = .ok (.body l, tr)) :
    tr = [.parsed, .setHeader res.scalars.length] ++ commitStep ac ∧
      l.length = res.scalars.length := by
  simp only [delete_many] at h
  by_cases hrc : res.rowcount ≠ 0
  · rw [if_pos hrc] at h
    cases hp : parseListWith (fun i => parseKey ⟨pname, i⟩) res.scalars with
    | none => rw [hp] at h; simp at h
    | some l2 =>
      rw [hp] at h
      simp at h
      refine ⟨h.2.symm, ?_⟩
      rw [← h.1]
      exact parseListWith_length _ res.scalars l2 hp
  · rw [if_neg hrc] at h; simp at h

lemma post_redirect_get_ok_trace (parse : Row α → Option ε) (getPk : ε → Option π)
    (pkStr : π → String) (pname : String) (ac : Bool) (url_path : String)
    (routes : List AppRoute) (row : Row α) (a : Artifact ε) (tr : List Event)
    (h : post_redirect_get parse getPk pkStr pname ac url_path routes row
      = .ok (a, tr)) : tr = [Event.parsed] ++ commitStep ac := by
  simp only [post_redirect_get] at h
  cases hp : parse row with
  | none => rw [hp] at h; simp at h
  | some result =>
    rw [hp] at h
    dsimp only at h
    cases hk : getPk result with
    | none => rw [hk] at h; simp at h
    | some pk =>
      rw [hk] at h
      dsimp only at h
      cases hs : scanRoutes (url_path ++ "/\x7b" ++ pname ++ "\x7d") routes false with
      | error e => rw [hs] at h; simp at h
      | ok b =>
        rw [hs] at h
        cases b
        · simp at h
        · simp at h; exact h.2.symm

/-- Claim C1: for every operation kind, every success outcome that carries a
body has the `x-total-count` header set, and its final value equals the
number of entities in that body: `1` for the singular kinds (find-one,
update-one, patch-one, upsert-one, delete-one) and the length of the
returned list for the list-shaped kinds (find-many, update-many,
patch-many, upsert-many, delete-many). -/
theorem C1_count_header_matches_body {α ε κ : Type} (parse1 : α → Option ε)
    (parseRow : Row α → Option ε) (parseKey : KeyObject α → Option κ)
    (pname : String) (ac : Bool) (res : SqlExecResult α) (row : Row α) :
    (∀ v tr, find_one parse1 ac res = .ok (.body v, tr) →
      finalHeader tr = some 1) ∧
    (∀ l tr, find_many parse1 ac res = .ok (.body l, tr) →
      finalHeader tr = some l.length) ∧
    (∀ v tr, update_one parseRow ac res = .ok (.body v, tr) →
      finalHeader tr = some 1) ∧
    (∀ l tr, update_many parseRow ac res = .ok (.body l, tr) →
      finalHeader tr = some l.length) ∧
    (∀ v tr, patch_one parseRow ac res = .ok (.body v, tr) →
      finalHeader tr = some 1) ∧
    (∀ l tr, patch_many parseRow ac res = .ok (.body l, tr) →
      finalHeader tr = some l.length) ∧
    (∀ v tr, upsert_one parseRow ac row = .ok (.body v, tr) →
      finalHeader tr = some 1) ∧
    (∀ l tr, upsert_many parseRow ac res = .ok (.body l, tr) →
      finalHeader tr = some l.length) ∧
    (∀ v tr, delete_one parseKey pname ac res = .ok (.body v, tr) →
      finalHeader tr = some 1) ∧
    (∀ l tr, delete_many parseKey pname ac res = .ok (.body l, tr) →
      finalHeader tr = some l.length) := by
  refine ⟨?_, ?_, ?_, ?_, ?_, ?_, ?_, ?_, ?_, ?_⟩
  · intro v tr h
    rw [find_one_ok_body parse1 ac res v tr h]
    exact finalHeader_parse_first 1 ac
  · intro l tr h
    obtain ⟨htr, hlen⟩ := find_many_ok_body parse1 ac res l tr h
    rw [htr, ← hlen]
    exact finalHeader_parse_first l.length ac
  · intro v tr h
    rw [update_one_ok_body parseRow ac res v tr h]
    exact finalHeader_header_first 1 ac
  · intro l tr h
    obtain ⟨htr, hlen⟩ := update_many_ok_body parseRow ac res l tr h
    rw [htr, ← hlen]
    exact finalHeader_header_first l.length ac
  · intro v tr h
    rw [patch_one_ok_body parseRow ac res v tr h]
    exact finalHeader_header_first 1 ac
  · intro l tr h
    obtain ⟨htr, hlen⟩ := patch_many_ok_body parseRow ac res l tr h
    rw [htr, ← hlen]
    exact finalHeader_header_first l.length ac
  · intro v tr h
    rw [upsert_one_ok_body parseRow ac row v tr h]
    exact finalHeader_parse_first 1 ac
  · intro l tr h
    obtain ⟨htr, hlen⟩ := upsert_many_ok_body parseRow ac res l tr h
    rw [htr, ← hlen]
    exact finalHeader_parse_first l.length ac
  · intro v tr h
    rw [delete_one_ok_body parseKey pname ac res v tr h]
    exact finalHeader_parse_first 1 ac
  · intro l tr h
    obtain ⟨htr, hlen⟩ := delete_many_ok_body parseKey pname ac res l tr h
    rw [htr, ← hlen]
    exact finalHeader_parse_first l.length ac

/-- Claim C1, witnessed at concrete inputs: each conjunct of
`C1_count_header_matches_body` applied to a one-row execution result with
identity-like conversions. -/
theorem C1_count_header_matches_body_witness :
    finalHeader [Event.parsed, Event.setHeader 1, Event.commitSession] = some 1 ∧
    finalHeader [Event.setHeader 1, Event.parsed, Event.commitSession] = some 1 :=
  ⟨(C1_count_header_matches_body (fun n : Nat => some n)
      (fun r : Row Nat => some r.scalar) (fun k : KeyObject Nat => some k.value)
      "id" true ⟨[⟨5⟩], 1⟩ ⟨5⟩).1 5
      [Event.parsed, Event.setHeader 1, Event.commitSession] rfl,
   ((C1_count_header_matches_body (fun n : Nat => some n)
      (fun r : Row Nat => some r.scalar) (fun k : KeyObject Nat => some k.value)
      "id" true ⟨[⟨5⟩], 1⟩ ⟨5⟩).2.2.1 5
      [Event.setHeader 1, Event.parsed, Event.commitSession] rfl)⟩

/-- Claim C2 fails on the code: `update_one` assigns the `x-total-count`
header (line 114) before calling `parse_obj_as` (line 115), so with a
conversion that fails, the header has already been set even though schema
conversion never succeeded. -/
theorem C2_counterexample :
    update_one (fun _ : Row Nat => (none : Option Nat)) true ⟨[⟨0⟩], 1⟩
        = .error (.parseError, [Event.setHeader 1]) ∧
      headerAfterParseB [Event.setHeader 1] = false :=
  ⟨rfl, rfl⟩

/-- Claim C2 as amended: every success transition commits last and works on
fully realized rows, and for find-one, find-many, upsert-one, upsert-many,
delete-one, delete-many and create-and-redirect the schema conversion
precedes the header assignment; but for update-one, update-many, patch-one
and patch-many the count header is assigned immediately before schema
conversion, not after it. -/
theorem C2_success_effect_order {α ε κ π : Type} (parse1 : α → Option ε)
    (parseRow : Row α → Option ε) (parseKey : KeyObject α → Option κ)
    (getPk : ε → Option π) (pkStr : π → String) (pname : String) (ac : Bool)
    (url_path : String) (routes : List AppRoute) (res : SqlExecResult α)
    (row : Row α) :
    (∀ v tr, find_one parse1 ac res = .ok (.body v, tr) →
      tr = [.parsed, .setHeader 1] ++ commitStep ac) ∧
    (∀ l tr, find_many parse1 ac res = .ok (.body l, tr) →
      tr = [.parsed, .setHeader res.scalars.length] ++ commitStep ac) ∧
    (∀ v tr, update_one parseRow ac res = .ok (.body v, tr) →
      tr = [.setHeader 1, .parsed] ++ commitStep ac) ∧
    (∀ l tr, update_many parseRow ac res = .ok (.body l, tr) →
      tr = [.setHeader res.rows.length, .parsed] ++ commitStep ac) ∧
    (∀ v tr, patch_one parseRow ac res = .ok (.body v, tr) →
      tr = [.setHeader 1, .parsed] ++ commitStep ac) ∧
    (∀ l tr, patch_many parseRow ac res = .ok (.body l, tr) →
      tr = [.setHeader res.rows.length, .parsed] ++ commitStep ac) ∧
    (∀ v tr, upsert_one parseRow ac row = .ok (.body v, tr) →
      tr = [.parsed, .setHeader 1] ++ commitStep ac) ∧
    (∀ l tr, upsert_many parseRow ac res = .ok (.body l, tr) →
      tr = [.parsed, .setHeader res.rows.length] ++ commitStep ac) ∧
    (∀ v tr, delete_one parseKey pname ac res = .ok (.body v, tr) →
      tr = [.parsed, .setHeader 1] ++ commitStep ac) ∧
    (∀ l tr, delete_many parseKey pname ac res = .ok (.body l, tr) →
      tr = [.parsed, .setHeader res.scalars.length] ++ commitStep ac) ∧
    (∀ a tr, post_redirect_get parseRow getPk pkStr pname ac url_path routes row
        = .ok (a, tr) → tr = [Event.parsed] ++ commitStep ac) := by
  refine ⟨fun v tr h => find_one_ok_body parse1 ac res v tr h,
    fun l tr h => (find_many_ok_body parse1 ac res l tr h).1,
    fun v tr h => update_one_ok_body parseRow ac res v tr h,
    fun l tr h => (update_many_ok_body parseRow ac res l tr h).1,
    fun v tr h => patch_one_ok_body parseRow ac res v tr h,
    fun l tr h => (patch_many_ok_body parseRow ac res l tr h).1,
    fun v tr h => upsert_one_ok_body parseRow ac row v tr h,
    fun l tr h => (upsert_many_ok_body parseRow ac res l tr h).1,
    fun v tr h => delete_one_ok_body parseKey pname ac res v tr h,
    fun l tr h => (delete_many_ok_body parseKey pname ac res l tr h).1,
    fun a tr h =>
      post_redirect_get_ok_trace parseRow getPk pkStr pname ac url_path routes
        row a tr h⟩

/-- Claim C2's amended statement, witnessed at concrete inputs: the
find-one and update-one conjuncts of `C2_success_effect_order` applied to
a one-row execution result. -/
theorem C2_success_effect_order_witness :
    ([Event.parsed, Event.setHeader 1, Event.commitSession] : List Event)
        = [Event.parsed, Event.setHeader 1] ++ commitStep true ∧
      ([Event.setHeader 1, Event.parsed, Event.commitSession] : List Event)
        = [Event.setHeader 1, Event.parsed] ++ commitStep true :=
  ⟨(C2_success_effect_order (fun n : Nat => some n)
      (fun r : Row Nat => some r.scalar) (fun k : KeyObject Nat => some k.value)
      (fun n : Nat => some n) (fun n => toString n) "id" true "/test" []
      ⟨[⟨5⟩], 1⟩ ⟨5⟩).1 5
      [Event.parsed, Event.setHeader 1, Event.commitSession] rfl,
   ((C2_success_effect_order (fun n : Nat => some n)
      (fun r : Row Nat => some r.scalar) (fun k : KeyObject Nat => some k.value)
      (fun n : Nat => some n) (fun n => toString n) "id" true "/test" []
      ⟨[⟨5⟩], 1⟩ ⟨5⟩).2.2.1 5
      [Event.setHeader 1, Event.parsed, Event.commitSession] rfl)⟩

/-- Claim C3: for the upsert-one, upsert-many and create-and-redirect
handlers, a raised integrity failure whose (single) message contains the
unique-constraint marker yields a 409 response with an empty effect trace
(so no commit happened), while a message without the marker is re-raised
unchanged and never becomes a 409. -/
theorem C3_integrity_error_handling {α ε π : Type} (parseRow : Row α → Option ε)
    (getPk : ε → Option π) (pkStr : π → String) (pname : String) (ac : Bool)
    (url_path : String) (routes : List AppRoute) (msg : String) :
    (strContainsSub unique_violation_marker msg = true →
      insert_one_and_support_upsert parseRow ac (α := α) (.integrityError [msg])
          = .ok (.statusResponse 409, []) ∧
      insert_many_and_support_upsert parseRow ac (α := α) (.integrityError [msg])
          = .ok (.statusResponse 409, []) ∧
      create_one_and_redirect_to_get_one_api_with_primary_key parseRow getPk
          pkStr pname ac url_path routes (α := α) (.integrityError [msg])
          = .ok (.statusResponse 409, [])) ∧
    (strContainsSub unique_violation_marker msg = false →
      insert_one_and_support_upsert parseRow ac (α := α) (.integrityError [msg])
          = .error (.integrityError [msg], []) ∧
      insert_many_and_support_upsert parseRow ac (α := α) (.integrityError [msg])
          = .error (.integrityError [msg], []) ∧
      create_one_and_redirect_to_get_one_api_with_primary_key parseRow getPk
          pkStr pname ac url_path routes (α := α) (.integrityError [msg])
          = .error (.integrityError [msg], [])) := by
  constructor
  · intro hmark
    refine ⟨?_, ?_, ?_⟩ <;>
      simp [insert_one_and_support_upsert, insert_many_and_support_upsert,
        create_one_and_redirect_to_get_one_api_with_primary_key, hmark]
  · intro hmark
    refine ⟨?_, ?_, ?_⟩ <;>
      simp [insert_one_and_support_upsert, insert_many_and_support_upsert,
        create_one_and_redirect_to_get_one_api_with_primary_key, hmark]

/-- Claim C3, witnessed at concrete messages: the marker string itself
becomes a 409 with no commit, and the message `"x"` is re-raised. -/
theorem C3_integrity_error_handling_witness :
    (insert_one_and_support_upsert (fun r : Row Nat => some r.scalar) true
        (.integrityError [unique_violation_marker])
        = .ok (.statusResponse 409, []) ∧
      insert_many_and_support_upsert (fun r : Row Nat => some r.scalar) true
        (.integrityError [unique_violation_marker])
        = .ok (.statusResponse 409, []) ∧
      create_one_and_redirect_to_get_one_api_with_primary_key
        (fun r : Row Nat => some r.scalar) (fun n : Nat => some n)
        (fun n => toString n) "id" true "/test" []
        (.integrityError [unique_violation_marker])
        = .ok (.statusResponse 409, [])) ∧
    insert_one_and_support_upsert (fun r : Row Nat => some r.scalar) true
        (.integrityError ["x"]) = .error (.integrityError ["x"], []) :=
  ⟨(C3_integrity_error_handling (fun r : Row Nat => some r.scalar)
      (fun n : Nat => some n) (fun n => toString n) "id" true "/test" []
      unique_violation_marker).1 (by decide),
   ((C3_integrity_error_handling (fun r : Row Nat => some r.scalar)
      (fun n : Nat => some n) (fun n => toString n) "id" true "/test" []
      "x").2 (by decide)).1⟩

lemma scanRoutes_ok_of_singletons (ep : String) (routes : List AppRoute)
    (hsingle : ∀ r ∈ routes, r.path = ep → ∃ m, r.methods = [m]) :
    ∀ acc, scanRoutes ep routes acc = .ok (acc || routes.any (isGetRouteAt ep)) := by
  induction routes with
  | nil => intro acc; simp [scanRoutes]
  | cons r rs ih =>
    intro acc
    simp only [scanRoutes]
    by_cases hp : r.path == ep
    · rw [if_pos hp]
      obtain ⟨m, hm⟩ := hsingle r (by simp) (by exact beq_iff_eq.mp hp)
      rw [hm]
      dsimp only
      rw [ih (fun r2 h2 => hsingle r2 (by simp [h2])) (acc || (strUpper m == "GET"))]
      simp [List.any, isGetRouteAt, hp, hm, Bool.or_assoc]
    · rw [if_neg hp]
      rw [ih (fun r2 h2 => hsingle r2 (by simp [h2])) acc]
      simp [List.any, isGetRouteAt, hp]

/-- Claim C4: for the create-and-redirect interpreter, after a successful
insert whose converted entity carries a primary-key value: when no GET
route is registered at `<collectionPath>/{primaryKeyName}` the session is
rolled back and a 404-class `FindOneApiNotRegister` error is raised with
no commit in the trace; when such a GET route exists the session is
committed and a 303 redirect to `<collectionPath>/<primaryKeyValue>` is
returned.  The route-table hypothesis states that each registered route at
that path serves exactly one method, which is how the registry builds
them. -/
theorem C4_redirect_route_check {α ε π : Type} (parse : Row α → Option ε)
    (getPk : ε → Option π) (pkStr : π → String) (pname : String) (ac : Bool)
    (url_path : String) (routes : List AppRoute) (row : Row α) (result : ε)
    (pk : π) (hparse : parse row = some result) (hpk : getPk result = some pk)
    (hsingle : ∀ r ∈ routes, r.path = url_path ++ "/\x7b" ++ pname ++ "\x7d" →
      ∃ m, r.methods = [m]) :
    (routes.any (isGetRouteAt (url_path ++ "/\x7b" ++ pname ++ "\x7d")) = false →
      post_redirect_get parse getPk pkStr pname ac url_path routes row
        = .error (.findOneApiNotRegister 404,
            [Event.parsed, Event.rollbackSession])) ∧
    (routes.any (isGetRouteAt (url_path ++ "/\x7b" ++ pname ++ "\x7d")) = true →
      post_redirect_get parse getPk pkStr pname ac url_path routes row
        = .ok (.redirect 303 (url_path ++ "/" ++ pkStr pk),
            [Event.parsed] ++ commitStep ac)) := by
  have hscan := scanRoutes_ok_of_singletons
    (url_path ++ "/\x7b" ++ pname ++ "\x7d") routes hsingle false
  constructor
  · intro hno
    rw [hno] at hscan
    simp only [post_redirect_get, hparse, hpk]
    rw [hscan]
    rfl
  · intro hyes
    rw [hyes] at hscan
    simp only [post_redirect_get, hparse, hpk]
    rw [hscan]
    rfl

/-- Claim C4, witnessed at concrete route tables: with only a POST route
at `/test/{id}` the insert is rolled back with a 404-class error; with a
GET route there the handler commits and redirects to `/test/7`. -/
theorem C4_redirect_route_check_witness :
    post_redirect_get (fun r : Row Nat => some r.scalar) (fun n : Nat => some n)
        (fun n => toString n) "id" true "/test"
        [⟨"/test/\x7bid\x7d", ["POST"]⟩] ⟨7⟩
      = .error (.findOneApiNotRegister 404,
          [Event.parsed, Event.rollbackSession]) ∧
    post_redirect_get (fun r : Row Nat => some r.scalar) (fun n : Nat => some n)
        (fun n => toString n) "id" true "/test"
        [⟨"/test/\x7bid\x7d", ["GET"]⟩] ⟨7⟩
      = .ok (.redirect 303 "/test/7", [Event.parsed] ++ commitStep true) :=
  ⟨(C4_redirect_route_check (fun r : Row Nat => some r.scalar)
      (fun n : Nat => some n) (fun n => toString n) "id" true "/test"
      [⟨"/test/\x7bid\x7d", ["POST"]⟩] ⟨7⟩ 7 7 rfl rfl
      (fun r hr _ => by
        simp at hr
        exact ⟨"POST", by rw [hr]⟩)).1 (by decide),
   (C4_redirect_route_check (fun r : Row Nat => some r.scalar)
      (fun n : Nat => some n) (fun n => toString n) "id" true "/test"
      [⟨"/test/\x7bid\x7d", ["GET"]⟩] ⟨7⟩ 7 7 rfl rfl
      (fun r hr _ => by
        simp at hr
        exact ⟨"GET", by rw [hr]⟩)).2 (by decide)⟩

/-- Claim C5: for find-one, update-one, patch-one and delete-one, a
zero-row outcome (for delete-one: a zero affected rowcount, whatever the
key sequence) produces `Response(204)` with an empty body, never a
schema-shaped `body` artifact. -/
theorem C5_singular_zero_rows_204 {α ε κ : Type} (parse1 : α → Option ε)
    (parseRow : Row α → Option ε) (parseKey : KeyObject α → Option κ)
    (pname : String) (ac : Bool) (rc : Nat) (rows : List (Row α)) :
    find_one parse1 ac ⟨[], rc⟩ = .ok (.statusResponse 204, commitStep ac) ∧
    update_one parseRow ac ⟨[], rc⟩ = .ok (.statusResponse 204, []) ∧
    patch_one parseRow ac ⟨[], rc⟩ = .ok (.statusResponse 204, []) ∧
    delete_one parseKey pname ac ⟨rows, 0⟩
      = .ok (.statusResponse 204, commitStep ac) := by
  refine ⟨rfl, rfl, rfl, ?_⟩
  simp [delete_one]

/-- Claim C6: for find-many, update-many and patch-many, an outcome whose
realized row sequence is empty yields the kind-specific empty behavior
(200 with an empty list and count 0 for find-many, 204 with no body for
the mutating kinds), and any returned list has exactly one entry per
realized row, so no partially-filled list is possible. -/
theorem C6_list_kinds_empty_behavior {α ε : Type} (parse1 : α → Option ε)
    (parseRow : Row α → Option ε) (ac : Bool) (rc : Nat)
    (res : SqlExecResult α) :
    find_many parse1 ac ⟨[], rc⟩
        = .ok (.body [], [Event.parsed, Event.setHeader 0] ++ commitStep ac) ∧
    update_many parseRow ac ⟨[], rc⟩ = .ok (.statusResponse 204, []) ∧
    patch_many parseRow ac ⟨[], rc⟩ = .ok (.statusResponse 204, []) ∧
    (∀ l tr, find_many parse1 ac res = .ok (.body l, tr) →
      l.length = res.scalars.length) ∧
    (∀ l tr, update_many parseRow ac res = .ok (.body l, tr) →
      l.length = res.rows.length) ∧
    (∀ l tr, patch_many parseRow ac res = .ok (.body l, tr) →
      l.length = res.rows.length) := by
  refine ⟨rfl, rfl, rfl, ?_, ?_, ?_⟩
  · intro l tr h
    exact (find_many_ok_body parse1 ac res l tr h).2
  · intro l tr h
    exact (update_many_ok_body parseRow ac res l tr h).2
  · intro l tr h
    exact (patch_many_ok_body parseRow ac res l tr h).2

/-- Claim C6, witnessed at concrete inputs: the full-list conjuncts of
`C6_list_kinds_empty_behavior` applied to a one-row execution result. -/
theorem C6_list_kinds_empty_behavior_witness :
    ([5] : List Nat).length
        = (SqlExecResult.scalars ⟨[⟨5⟩], 1⟩ : List Nat).length ∧
      ([⟨5⟩] : List (Row Nat)).length
        = (SqlExecResult.rows ⟨[⟨5⟩], 1⟩ : List (Row Nat)).length :=
  ⟨(C6_list_kinds_empty_behavior (fun n : Nat => some n)
      (fun r : Row Nat => some r.scalar) true 0 ⟨[⟨5⟩], 1⟩).2.2.2.1 [5]
      [Event.parsed, Event.setHeader 1, Event.commitSession] rfl,
   (C6_list_kinds_empty_behavior (fun n : Nat => some (Row.mk n))
      (fun r : Row Nat => some r) true 0 ⟨[⟨5⟩], 1⟩).2.2.2.2.1 [⟨5⟩]
      [Event.setHeader 1, Event.parsed, Event.commitSession] rfl⟩

/-- Claim C7: the delete kinds take their 204 branch exactly when the
affected rowcount is zero, irrespective of the returned key sequence; with
a non-zero rowcount, delete-many returns a list with one converted
key-object `\x7bprimaryKeyName: value\x7d` per returned key and the count
header equal to that list's length, and delete-one (whose statement
returns a single key) returns the single converted key-object with count
1. -/
theorem C7_delete_rowcount_semantics {α κ : Type}
    (parseKey : KeyObject α → Option κ) (pname : String) (ac : Bool)
    (res : SqlExecResult α) (k : α) (v : κ) :
    (∀ tr, delete_one parseKey pname ac res = .ok (.statusResponse 204, tr) ↔
      res.rowcount = 0 ∧ tr = commitStep ac) ∧
    (∀ tr, delete_many parseKey pname ac res = .ok (.statusResponse 204, tr) ↔
      res.rowcount = 0 ∧ tr = commitStep ac) ∧
    (res.rowcount ≠ 0 →
      ∀ l, parseListWith (fun i => parseKey ⟨pname, i⟩) res.scalars = some l →
        delete_many parseKey pname ac res
            = .ok (.body l,
                [Event.parsed, Event.setHeader res.scalars.length]
                  ++ commitStep ac) ∧
          l.length = res.scalars.length) ∧
    (res.rowcount ≠ 0 → res.scalars = [k] → parseKey ⟨pname, k⟩ = some v →
      delete_one parseKey pname ac res
        = .ok (.body v, [Event.parsed, Event.setHeader 1] ++ commitStep ac)) := by
  refine ⟨?_, ?_, ?_, ?_⟩
  · intro tr
    constructor
    · intro h
      simp only [delete_one] at h
      by_cases hrc : res.rowcount ≠ 0
      · rw [if_pos hrc] at h
        cases hp : parseListWith (fun i => parseKey ⟨pname, i⟩) res.scalars with
        | none => rw [hp] at h; simp at h
        | some l2 =>
          rw [hp] at h
          rcases l2 with _ | ⟨w, _ | ⟨w2, ws⟩⟩ <;> simp at h
      · rw [if_neg hrc] at h
        simp at h
        exact ⟨by omega, h.symm⟩
    · rintro ⟨hrc, htr⟩
      subst htr
      simp [delete_one, hrc]
  · intro tr
    constructor
    · intro h
      simp only [delete_many] at h
      by_cases hrc : res.rowcount ≠ 0
      · rw [if_pos hrc] at h
        cases hp : parseListWith (fun i => parseKey ⟨pname, i⟩) res.scalars with
        | none => rw [hp] at h; simp at h
        | some l2 => rw [hp] at h; simp at h
      · rw [if_neg hrc] at h
        simp at h
        exact ⟨by omega, h.symm⟩
    · rintro ⟨hrc, htr⟩
      subst htr
      simp [delete_many, hrc]
  · intro hrc l hp
    refine ⟨?_, parseListWith_length _ res.scalars l hp⟩
    simp [delete_many, hrc, hp]
  · intro hrc hk hv
    simp [delete_one, hrc, hk, parseListWith, hv]

/-- Claim C7, witnessed at concrete inputs: a two-key delete-many with
rowcount 2, a one-key delete-one with rowcount 1, and the 204 branch of
both at rowcount 0. -/
theorem C7_delete_rowcount_semantics_witness :
    delete_many (fun key : KeyObject Nat => some key.value) "id" true
        ⟨[⟨3⟩, ⟨4⟩], 2⟩
      = .ok (.body [3, 4],
          [Event.parsed, Event.setHeader 2] ++ commitStep true) ∧
    delete_one (fun key : KeyObject Nat => some key.value) "id" true ⟨[⟨3⟩], 1⟩
      = .ok (.body 3, [Event.parsed, Event.setHeader 1] ++ commitStep true) ∧
    delete_one (fun key : KeyObject Nat => some key.value) "id" true ⟨[⟨3⟩], 0⟩
      = .ok (.statusResponse 204, commitStep true) := by
  refine ⟨?_, ?_, ?_⟩
  · have h := ((C7_delete_rowcount_semantics
      (fun key : KeyObject Nat => some key.value) "id" true ⟨[⟨3⟩, ⟨4⟩], 2⟩
      3 3).2.2.1 (by decide) [3, 4] rfl).1
    simpa using h
  · exact (C7_delete_rowcount_semantics
      (fun key : KeyObject Nat => some key.value) "id" true ⟨[⟨3⟩], 1⟩
      3 3).2.2.2 (by decide) rfl rfl
  · exact ((C7_delete_rowcount_semantics
      (fun key : KeyObject Nat => some key.value) "id" true ⟨[⟨3⟩], 0⟩
      3 3).1 (commitStep true)).2 ⟨rfl, rfl⟩

/-- The cached-row-state invalidation order claimed by the spec: the
statement actually executes, then `expire_all` runs, then results are
read. -/
def invalidatesAfterExecute (tr : List HEvent) : Prop :=
  tr.indexOf HEvent.stmtExecuted < tr.indexOf HEvent.expireAll ∧
    tr.indexOf HEvent.expireAll < tr.indexOf HEvent.resultsRead

instance (tr : List HEvent) : Decidable (invalidatesAfterExecute tr) :=
  inferInstanceAs (Decidable (And _ _))

/-- Claim C8 fails on the code in suspending mode: in the
`delete_one_by_primary_key` handler with `async_mode = True`,
`session.execute(stmt)` only builds a coroutine, `session.expire_all()`
runs next, and the statement itself executes only at the later `await`,
so invalidation happens before — not after — the mutating statement has
executed. -/
theorem C8_counterexample :
    delete_one_by_primary_key_trace true
        = [HEvent.expireAll, HEvent.stmtExecuted, HEvent.resultsRead] ∧
      ¬ invalidatesAfterExecute (delete_one_by_primary_key_trace true) :=
  ⟨rfl, by decide⟩

/-- Claim C8 as amended: every update, patch and delete handler calls
`expire_all` between issuing `session.execute(stmt)` and reading results.
In synchronous mode the statement has already executed at that point, so
invalidation is after execution and before the results are read; in
suspending mode the execute call has only produced a coroutine, so
invalidation happens before the statement actually executes (at the later
`await`), though still before any result is read. -/
theorem C8_expire_all_placement (async_mode : Bool) :
    delete_one_by_primary_key_trace async_mode
        = (if async_mode then
            [HEvent.expireAll, HEvent.stmtExecuted, HEvent.resultsRead]
          else [HEvent.stmtExecuted, HEvent.expireAll, HEvent.resultsRead]) ∧
      delete_many_by_query_trace async_mode
        = delete_one_by_primary_key_trace async_mode ∧
      patch_one_by_primary_key_trace async_mode
        = delete_one_by_primary_key_trace async_mode ∧
      patch_many_by_query_trace async_mode
        = delete_one_by_primary_key_trace async_mode ∧
      entire_update_by_primary_key_trace async_mode
        = delete_one_by_primary_key_trace async_mode ∧
      entire_update_many_by_query_trace async_mode
        = delete_one_by_primary_key_trace async_mode ∧
      invalidatesAfterExecute (delete_one_by_primary_key_trace false) ∧
      (delete_one_by_primary_key_trace async_mode).indexOf HEvent.expireAll
        < (delete_one_by_primary_key_trace async_mode).indexOf
            HEvent.resultsRead := by
  cases async_mode <;> exact ⟨rfl, rfl, rfl, rfl, rfl, rfl, by decide, by decide⟩

/-- Claim C9: with the autocommit policy enabled, the zero-row 204 paths
of update-one, update-many, patch-one and patch-many return before the
commit step is reached (their effect traces are empty), while the 204
paths of find-one, delete-one and delete-many do run the commit step
before returning. -/
theorem C9_zero_row_commit_behavior {α ε κ : Type} (parse1 : α → Option ε)
    (parseRow : Row α → Option ε) (parseKey : KeyObject α → Option κ)
    (pname : String) (rc : Nat) (rows : List (Row α)) :
    update_one parseRow true ⟨[], rc⟩ = .ok (.statusResponse 204, []) ∧
    update_many parseRow true ⟨[], rc⟩ = .ok (.statusResponse 204, []) ∧
    patch_one parseRow true ⟨[], rc⟩ = .ok (.statusResponse 204, []) ∧
    patch_many parseRow true ⟨[], rc⟩ = .ok (.statusResponse 204, []) ∧
    find_one parse1 true ⟨[], rc⟩
      = .ok (.statusResponse 204, [Event.commitSession]) ∧
    delete_one parseKey pname true ⟨rows, 0⟩
      = .ok (.statusResponse 204, [Event.commitSession]) ∧
    delete_many parseKey pname true ⟨rows, 0⟩
      = .ok (.statusResponse 204, [Event.commitSession]) := by
  refine ⟨rfl, rfl, rfl, rfl, rfl, ?_, ?_⟩ <;>
    simp [delete_one, delete_many, commitStep]

/-- Claim C10: in delete-one with a non-zero affected rowcount, when the
returned key sequence converts cleanly but does not contain exactly one
key, the single-target unpacking `result, = [...]` raises a `ValueError`
and no response artifact is produced. -/
theorem C10_delete_one_unpack {α κ : Type} (parseKey : KeyObject α → Option κ)
    (pname : String) (ac : Bool) (res : SqlExecResult α) (l : List κ)
    (hrc : res.rowcount ≠ 0)
    (hp : parseListWith (fun i => parseKey ⟨pname, i⟩) res.scalars = some l)
    (hlen : l.length ≠ 1) :
    delete_one parseKey pname ac res = .error (.unpackError, [Event.parsed]) := by
  simp only [delete_one, if_pos hrc, hp]
  rcases l with _ | ⟨w, _ | ⟨w2, ws⟩⟩
  · rfl
  · simp at hlen
  · rfl

/-- Claim C10, witnessed at a concrete input: a delete-one whose statement
returned two keys while reporting rowcount 2 raises instead of answering. -/
theorem C10_delete_one_unpack_witness :
    (2 ≠ 0) ∧
      delete_one (fun key : KeyObject Nat => some key.value) "id" true
          ⟨[⟨3⟩, ⟨4⟩], 2⟩
        = .error (.unpackError, [Event.parsed]) :=
  ⟨by decide,
   C10_delete_one_unpack (fun key : KeyObject Nat => some key.value) "id" true
     ⟨[⟨3⟩, ⟨4⟩], 2⟩ [3, 4] (by decide) rfl (by decide)⟩

end FastapiQuickcrud
